import Mathlib

/-
Verification of the Groq provider adapter
(src/libs/agno/agno/models/groq/groq.py).

The Python code is shallowly embedded: every method that the properties
below talk about is translated into an executable Lean definition.
Mutable Python objects are modelled by explicit state passing.  In
particular, the Python list `tool_calls` inside `parse_tool_calls` holds
object references, and the growth expression `[{}] * n` repeats a
reference to one single dict; the embedding therefore separates the list
of references (`cells`) from the object store (`store`).
-/

namespace Agno

/-- Python truthiness of an optional string: `None` and the empty string
are falsy. -/
def pyTruthyStr : Option String → Bool
  | none => false
  | some s => !s.isEmpty

/-- Byte strings (Python `bytes`) are modelled as lists of byte values. -/
abbrev Bytes := List Nat

/-- Python truthiness of optional bytes: `None` and empty bytes are falsy. -/
def pyTruthyBytes : Option Bytes → Bool
  | none => false
  | some b => !b.isEmpty

/-! ## Streamed tool-call fragments and `parse_tool_calls` -/

/-- A streamed tool-call fragment (the groq SDK type `ChoiceDeltaToolCall`).
The source only reads `index`, `id`, `type`, `function.name` and
`function.arguments`; a `None` function yields `None` name and arguments,
so the two nested reads are flattened into two optional fields. -/
structure ChoiceDeltaToolCall where
  index : Nat
  id : Option String
  type : Option String
  function_name : Option String
  function_arguments : Option String
deriving DecidableEq

/-- The `function` sub-dict of a reassembled tool-call entry. -/
structure ToolCallFunctionDict where
  name : String
  arguments : String
deriving DecidableEq

/-- A populated tool-call dict built by `parse_tool_calls`
(keys `id`, `type`, `function`). -/
structure ToolCallEntry where
  id : Option String
  type : Option String
  function : ToolCallFunctionDict
deriving DecidableEq

/-- The mutable state of `parse_tool_calls`: `cells` is the Python list
`tool_calls`, holding references into `store`; a store slot of `none` is
the empty dict.  The Python growth step `tool_calls.extend([{}] * n)`
evaluates `{}` once and appends n references to that single fresh dict,
which the embedding mirrors by allocating one store slot and appending n
copies of its address. -/
structure ToolCallsHeap where
  cells : List Nat
  store : List (Option ToolCallEntry)

/-- One iteration of the loop body of `Groq.parse_tool_calls`
(groq.py lines 383-408). -/
def processFragment (h : ToolCallsHeap) (tc : ChoiceDeltaToolCall) : ToolCallsHeap :=
  -- if len(tool_calls) <= _index: tool_calls.extend([{}] * (_index - len(tool_calls) + 1))
  let h :=
    if h.cells.length ≤ tc.index then
      { cells := h.cells ++ List.replicate (tc.index + 1 - h.cells.length) h.store.length
        store := h.store ++ [none] }
    else h
  -- tool_call_entry = tool_calls[_index]
  let cell := h.cells.getD tc.index 0
  match h.store.getD cell none with
  | none =>
      -- if not tool_call_entry: initialize id, type and function
      { h with
        store := h.store.set cell (some
          { id := tc.id
            type := tc.type
            function :=
              { name := tc.function_name.getD ""
                arguments := tc.function_arguments.getD "" } }) }
  | some entry =>
      -- else: concatenate name and arguments, overwrite id and type when truthy
      let f := entry.function
      let f := if pyTruthyStr tc.function_name then
          { f with name := f.name ++ tc.function_name.getD "" } else f
      let f := if pyTruthyStr tc.function_arguments then
          { f with arguments := f.arguments ++ tc.function_arguments.getD "" } else f
      let entry := { entry with function := f }
      let entry := if pyTruthyStr tc.id then { entry with id := tc.id } else entry
      let entry := if pyTruthyStr tc.type then { entry with type := tc.type } else entry
      { h with store := h.store.set cell (some entry) }

/-- `Groq.parse_tool_calls` (groq.py lines 371-409): fold the fragments
over the empty list and read every reference back from the store.  A
result element of `none` is an empty placeholder dict. -/
def parse_tool_calls (tool_calls_data : List ChoiceDeltaToolCall) :
    List (Option ToolCallEntry) :=
  let h := tool_calls_data.foldl processFragment { cells := [], store := [] }
  h.cells.map (fun c => h.store.getD c none)

/-- Fragment carrying index 0, name piece "a", argument piece "x". -/
def frag_a : ChoiceDeltaToolCall :=
  { index := 0, id := none, type := none
    function_name := some "a", function_arguments := some "x" }

/-- Fragment carrying index 1, name piece "b", argument piece "y". -/
def frag_b : ChoiceDeltaToolCall :=
  { index := 1, id := none, type := none
    function_name := some "b", function_arguments := some "y" }

/-- C1: folding the two fragments with index 0 and pieces
(name "get_", arguments with an opening brace) then
(name "weather", arguments closing the object) yields exactly one entry,
at index 0, with function name "get_weather" and the complete argument
string: later pieces are concatenated onto the existing text, never
overwritten. -/
theorem parse_tool_calls_concat_fragments :
    parse_tool_calls
      [ { index := 0, id := none, type := none
          function_name := some "get_", function_arguments := some "\x7b\"a\"" },
        { index := 0, id := none, type := none
          function_name := some "weather", function_arguments := some ":1\x7d" } ]
    = [ some { id := none, type := none
               function := { name := "get_weather", arguments := "\x7b\"a\":1\x7d" } } ] := by
  decide

/-- C2: evaluation at the failing input.  When the index-1 fragment
arrives before the index-0 fragment, the growth step appends two
references to one shared dict, so both result entries are that single
dict: the name pieces of both indices are concatenated into "ba" and the
argument pieces into "yx".  Processing the same fragments with index 0
first gives the two separate entries the claim expects, so the result
does depend on the arrival order of distinct indices. -/
theorem parse_tool_calls_out_of_order_aliasing :
    parse_tool_calls [frag_b, frag_a]
      = [ some { id := none, type := none
                 function := { name := "ba", arguments := "yx" } },
          some { id := none, type := none
                 function := { name := "ba", arguments := "yx" } } ]
    ∧ parse_tool_calls [frag_a, frag_b]
      = [ some { id := none, type := none
                 function := { name := "a", arguments := "x" } },
          some { id := none, type := none
                 function := { name := "b", arguments := "y" } } ]
    ∧ parse_tool_calls [frag_b, frag_a] ≠ parse_tool_calls [frag_a, frag_b] := by
  refine ⟨by decide, by decide, by decide⟩

/-- C10: evaluation at the failing input.  A single fragment with index 1
produces a list of length 2 (one plus the largest index), but the entry
at index 0 — for which no fragment ever arrived — is not an empty
placeholder mapping: it is the same shared dict as the entry at index 1
and appears fully populated. -/
theorem parse_tool_calls_gap_entry_populated :
    parse_tool_calls [frag_b]
      = [ some { id := none, type := none
                 function := { name := "b", arguments := "y" } },
          some { id := none, type := none
                 function := { name := "b", arguments := "y" } } ]
    ∧ (parse_tool_calls [frag_b]).getD 0 none ≠ none
    ∧ (parse_tool_calls [frag_b]).length = 2 := by
  refine ⟨by decide, by decide, by decide⟩

/-! ## Audio transcription (`_format_audio_for_message`, `transcribe_audio`) -/

/-- Python exceptions that matter here.  The source only ever raises the
first form, `ValueError("Failed to process audio data")`; the second form
is the vocabulary needed to state a claim about a distinct file-not-found
condition. -/
inductive PyExc where
  | valueError (msg : String)
  | fileNotFoundError (msg : String)
deriving DecidableEq

/-- Modelled from the spec: the `Audio` media value (agno.media, not under
src) is one of in-memory bytes, remote URL content, or a local file path,
with an optional format hint.  Field names follow the attribute reads in
groq.py. -/
structure Audio where
  content : Option Bytes := none
  url : Option String := none
  audio_url_content : Option Bytes := none
  filepath : Option String := none
  format : Option String := none
deriving DecidableEq

/-- `Groq._format_audio_for_message` (groq.py lines 495-525).  The
filesystem is passed explicitly: `fs p = some b` means the path exists,
is a file and reads as bytes `b`; `fs p = none` covers a missing path, in
which case the source returns `None`. -/
def _format_audio_for_message (fs : String → Option Bytes) (audio : Audio) :
    Option Bytes :=
  -- Case 1: audio.content and isinstance(audio.content, bytes)
  if pyTruthyBytes audio.content then audio.content
  -- Case 2: audio.url is not None and audio.audio_url_content is not None
  else if audio.url.isSome && audio.audio_url_content.isSome then audio.audio_url_content
  -- Case 3: local file path; a nonexistent path returns None
  else if audio.filepath.isSome then fs (audio.filepath.getD "")
  else none

/-- The keyword parameters assembled for the transcription request
(groq.py lines 573-581); falsy strings are not included, a temperature is
included whenever it is not None. -/
structure TranscribeParams where
  language : Option String
  prompt : Option String
  response_format : Option String
  temperature : Option Rat
deriving DecidableEq

/-- The union type of the `audio_data` parameter:
raw bytes, one Audio value, or a list of Audio values. -/
inductive AudioData where
  | raw (b : Bytes)
  | single (a : Audio)
  | list (l : List Audio)

/-- Outcome of `transcribe_audio`: either an exception raised before any
network call, or a description of the one transcription request the code
hands to the provider client. -/
inductive TranscribeOutcome where
  | failed (e : PyExc)
  | network_call (file : String) (audio_bytes : Bytes) (model : String)
      (params : TranscribeParams)
deriving DecidableEq

/-- `file_format = file_format or "mp3"` (groq.py line 583). -/
def resolve_file_format : Option String → String
  | some s => if s.isEmpty then "mp3" else s
  | none => "mp3"

/-- `Groq.transcribe_audio` (groq.py lines 527-590).  Bytes are resolved
first (raising `ValueError("Failed to process audio data")` when
`_format_audio_for_message` yields `None`); only then is the request
issued. -/
def transcribe_audio (fs : String → Option Bytes) (audio_data : AudioData)
    (file_format language prompt response_format : Option String)
    (temperature : Option Rat) (model : String) : TranscribeOutcome :=
  let resolved : Except PyExc (Bytes × Option String) :=
    match audio_data with
    | .list (audio_obj :: _) =>
      -- isinstance(audio_data, list) and len(audio_data) > 0: first element
      match _format_audio_for_message fs audio_obj with
      | none => .error (.valueError "Failed to process audio data")
      | some processed =>
        .ok (processed,
          if !(pyTruthyStr file_format) && pyTruthyStr audio_obj.format then
            audio_obj.format else file_format)
    | .single a =>
      match _format_audio_for_message fs a with
      | none => .error (.valueError "Failed to process audio data")
      | some processed =>
        .ok (processed,
          if !(pyTruthyStr file_format) && pyTruthyStr a.format then
            a.format else file_format)
    | .raw b => .ok (b, file_format)
    | .list [] =>
      -- an empty list falls into the raw-bytes branch of the source and
      -- reaches the client call carrying the list object itself
      .ok ([], file_format)
  match resolved with
  | .error e => .failed e
  | .ok (audio_bytes, ff) =>
    .network_call ("audio." ++ resolve_file_format ff) audio_bytes model
      { language := if pyTruthyStr language then language else none
        prompt := if pyTruthyStr prompt then prompt else none
        response_format := if pyTruthyStr response_format then response_format else none
        temperature := temperature }

/-- Does the outcome fail with a file-not-found condition? -/
def is_file_not_found_failure : TranscribeOutcome → Bool
  | .failed (.fileNotFoundError _) => true
  | _ => false

/-- A filesystem on which no path exists. -/
def fs_empty : String → Option Bytes := fun _ => none

/-- An Audio value carrying only a nonexistent file path. -/
def audio_missing_file : Audio := { filepath := some "/tmp/missing.mp3" }

/-- C9 counterexample: for an Audio value whose only content is a
nonexistent file path, transcribe_audio fails before any network call,
but with the generic ValueError "Failed to process audio data" — not
with a file-not-found condition as the claim states. -/
theorem transcribe_audio_missing_file_not_file_not_found :
    transcribe_audio fs_empty (.single audio_missing_file)
        none none none (some "text") none "whisper-large-v3-turbo"
      = .failed (.valueError "Failed to process audio data")
    ∧ is_file_not_found_failure
        (transcribe_audio fs_empty (.single audio_missing_file)
          none none none (some "text") none "whisper-large-v3-turbo") = false := by
  refine ⟨by decide, by decide⟩

/-- C9 (amended): for every Audio value with no embedded bytes and no URL
content whose filepath names a nonexistent file, transcribe_audio fails
with the generic unprocessable-audio condition
ValueError "Failed to process audio data", raised during audio-byte
resolution before any transcription network call is made. -/
theorem transcribe_audio_missing_file_fails_before_network
    (fs : String → Option Bytes) (a : Audio) (p : String)
    (h1 : a.content = none) (h2 : a.url = none) (h3 : a.audio_url_content = none)
    (h4 : a.filepath = some p) (h5 : fs p = none)
    (ff lang pr rf : Option String) (temp : Option Rat) (mdl : String) :
    transcribe_audio fs (.single a) ff lang pr rf temp mdl
      = .failed (.valueError "Failed to process audio data") := by
  simp [transcribe_audio, _format_audio_for_message, pyTruthyBytes, h1, h2, h3, h4, h5]

/-- C9 witness: the amended theorem applied to the concrete Audio value
with only the nonexistent path "/tmp/missing.mp3" on the empty
filesystem. -/
theorem transcribe_audio_missing_file_fails_before_network_witness :
    transcribe_audio fs_empty (.single audio_missing_file)
        none none none (some "text") none "whisper-large-v3-turbo"
      = .failed (.valueError "Failed to process audio data") :=
  transcribe_audio_missing_file_fails_before_network fs_empty audio_missing_file
    "/tmp/missing.mp3" rfl rfl rfl rfl rfl
    none none none (some "text") none "whisper-large-v3-turbo"

/-! ## Complete-response normalization (`parse_provider_response`) -/

/-- The dict produced by `model_dump()` on a provider tool call. -/
structure ToolCallDump where
  id : String
  type : String
  function : ToolCallFunctionDict
deriving DecidableEq

/-- A tool call inside a complete provider response (SDK type
`ChatCompletionMessageToolCall`).  The only operation the source applies
is `model_dump()`; `dump = none` models that call raising. -/
structure ProviderToolCall where
  dump : Option ToolCallDump
deriving DecidableEq

/-- The message of a choice in a complete provider response. -/
structure ResponseMessage where
  role : Option String := none
  content : Option String := none
  tool_calls : Option (List ProviderToolCall) := none
deriving DecidableEq

/-- One choice of a complete provider response. -/
structure Choice where
  message : ResponseMessage
deriving DecidableEq

/-- The usage block of a complete provider response (SDK type
`CompletionUsage`): the three token counts are required fields of the SDK
model, the timing fields are optional floats, modelled as rationals since
the source only copies them verbatim. -/
structure CompletionUsage where
  prompt_tokens : Int
  completion_tokens : Int
  total_tokens : Int
  completion_time : Option Rat := none
  prompt_time : Option Rat := none
  queue_time : Option Rat := none
  total_time : Option Rat := none
deriving DecidableEq

/-- A complete provider response (SDK type `ChatCompletion`),
restricted to the fields the source reads. -/
structure ChatCompletion where
  choices : List Choice
  usage : Option CompletionUsage := none
deriving DecidableEq

/-- The `additional_metrics` bag of normalized usage. -/
structure AdditionalMetrics where
  completion_time : Option Rat
  prompt_time : Option Rat
  queue_time : Option Rat
  total_time : Option Rat
deriving DecidableEq

/-- The normalized `response_usage` dict (groq.py lines 443-453). -/
structure ResponseUsage where
  input_tokens : Int
  output_tokens : Int
  total_tokens : Int
  additional_metrics : AdditionalMetrics
deriving DecidableEq

/-- Modelled from the spec: `ModelResponse` (agno.models.response, not
under src) carries role, content, the list of tool calls and usage
metrics; fields not assigned by the parser are modelled as `none`. -/
structure ModelResponse where
  role : Option String := none
  content : Option String := none
  tool_calls : Option (List ToolCallDump) := none
  response_usage : Option ResponseUsage := none
deriving DecidableEq

/-- The list comprehension `[t.model_dump() for t in tool_calls]` inside
the try block (groq.py line 437): the first failing dump aborts the whole
comprehension. -/
def dump_tool_calls : List ProviderToolCall → Option (List ToolCallDump)
  | [] => some []
  | t :: ts =>
    match t.dump, dump_tool_calls ts with
    | some d, some ds => some (d :: ds)
    | _, _ => none

/-- `Groq.parse_provider_response` (groq.py lines 411-454).  Accessing
`response.choices[0]` on an empty list raises in Python; that case is
modelled as `none`. -/
def parse_provider_response (response : ChatCompletion) : Option ModelResponse :=
  match response.choices with
  | [] => none
  | choice :: _ =>
    let response_message := choice.message
    let tool_calls : Option (List ToolCallDump) :=
      match response_message.tool_calls with
      | some tcs =>
        if 0 < tcs.length then
          match dump_tool_calls tcs with
          | some dumps => some dumps
          | none => none   -- exception logged; tool_calls left entirely unset
        else none
      | none => none
    let response_usage : Option ResponseUsage :=
      match response.usage with
      | some u => some
          { input_tokens := u.prompt_tokens
            output_tokens := u.completion_tokens
            total_tokens := u.total_tokens
            additional_metrics :=
              { completion_time := u.completion_time
                prompt_time := u.prompt_time
                queue_time := u.queue_time
                total_time := u.total_time } }
      | none => none
    some { role := response_message.role
           content := response_message.content
           tool_calls := tool_calls
           response_usage := response_usage }

lemma dump_tool_calls_all_some (ts : List ProviderToolCall)
    (h : ∀ t ∈ ts, (t.dump).isSome) :
    ∃ l, dump_tool_calls ts = some l ∧ l.length = ts.length := by
  induction ts with
  | nil => exact ⟨[], rfl, rfl⟩
  | cons t ts ih =>
    obtain ⟨d, hd⟩ := Option.isSome_iff_exists.mp (h t (List.mem_cons_self t ts))
    obtain ⟨l, hl, hlen⟩ := ih (fun x hx => h x (List.mem_cons_of_mem t hx))
    exact ⟨d :: l, by simp [dump_tool_calls, hd, hl], by simp [hlen]⟩

lemma dump_tool_calls_of_mem_none (ts : List ProviderToolCall)
    (t : ProviderToolCall) (ht : t ∈ ts) (hd : t.dump = none) :
    dump_tool_calls ts = none := by
  induction ts with
  | nil => cases ht
  | cons a as ih =>
    rcases List.mem_cons.mp ht with h | h
    · subst h
      simp [dump_tool_calls, hd]
    · have := ih h
      cases ha : a.dump <;> simp [dump_tool_calls, ha, this]

/-- C3: for every complete provider response whose first choice carries a
nonempty list of tool calls, parse_provider_response succeeds and either
(when every tool call converts) sets tool_calls to a list of exactly the
same length, or (when converting any tool call fails) leaves tool_calls
entirely unset; the result is never a partial mixture, and the embedding
is a total function, so the failure never raises. -/
theorem parse_provider_response_tool_calls_all_or_nothing
    (response : ChatCompletion) (choice : Choice) (rest : List Choice)
    (tcs : List ProviderToolCall)
    (hc : response.choices = choice :: rest)
    (ht : choice.message.tool_calls = some tcs)
    (hn : 0 < tcs.length) :
    ∃ mr, parse_provider_response response = some mr
      ∧ ((∀ t ∈ tcs, (t.dump).isSome) →
           ∃ l, mr.tool_calls = some l ∧ l.length = tcs.length)
      ∧ ((∃ t ∈ tcs, t.dump = none) → mr.tool_calls = none) := by
  refine ⟨_, by rw [parse_provider_response, hc], ?_, ?_⟩
  · intro hall
    obtain ⟨l, hl, hlen⟩ := dump_tool_calls_all_some tcs hall
    exact ⟨l, by simp [ht, hn, hl], hlen⟩
  · rintro ⟨t, htm, hd⟩
    simp [ht, hn, dump_tool_calls_of_mem_none tcs t htm hd]

/-- A provider tool call whose `model_dump()` succeeds. -/
def provider_tool_call_ok : ProviderToolCall :=
  { dump := some { id := "call_1", type := "function"
                   function := { name := "get_weather", arguments := "\x7b\x7d" } } }

/-- A concrete complete response carrying one tool call. -/
def response_with_tool_call : ChatCompletion :=
  { choices := [ { message := { role := some "assistant"
                                tool_calls := some [provider_tool_call_ok] } } ] }

/-- C3 witness: the all-or-nothing theorem applied to the concrete
response with one convertible tool call. -/
theorem parse_provider_response_tool_calls_all_or_nothing_witness :
    ∃ mr, parse_provider_response response_with_tool_call = some mr
      ∧ ((∀ t ∈ [provider_tool_call_ok], (t.dump).isSome) →
           ∃ l, mr.tool_calls = some l ∧ l.length = [provider_tool_call_ok].length)
      ∧ ((∃ t ∈ [provider_tool_call_ok], t.dump = none) → mr.tool_calls = none) :=
  parse_provider_response_tool_calls_all_or_nothing response_with_tool_call
    _ [] [provider_tool_call_ok] rfl rfl (by decide)

/-- C6: for every complete response (nonempty choices) whose usage block
carries prompt_tokens = 10 and completion_tokens = 5,
parse_provider_response produces response_usage with input_tokens = 10,
output_tokens = 5, and total_tokens equal to the provider-supplied total
(the SDK usage model carries total_tokens as a required field, so the
provider total is always present and is always the value used). -/
theorem parse_provider_response_usage_metrics
    (response : ChatCompletion) (choice : Choice) (rest : List Choice)
    (u : CompletionUsage)
    (hc : response.choices = choice :: rest) (hu : response.usage = some u)
    (hp : u.prompt_tokens = 10) (hcm : u.completion_tokens = 5) :
    ∃ mr ru, parse_provider_response response = some mr
      ∧ mr.response_usage = some ru
      ∧ ru.input_tokens = 10 ∧ ru.output_tokens = 5
      ∧ ru.total_tokens = u.total_tokens := by
  unfold parse_provider_response
  rw [hc, hu]
  exact ⟨_, _, rfl, rfl, hp, hcm, rfl⟩

/-- A concrete complete response with usage prompt 10, completion 5,
provider total 15. -/
def response_with_usage : ChatCompletion :=
  { choices := [ { message := { role := some "assistant", content := some "ok" } } ]
    usage := some { prompt_tokens := 10, completion_tokens := 5, total_tokens := 15 } }

/-- C6 witness: the usage theorem applied to the concrete response whose
usage block is prompt 10 / completion 5 / total 15. -/
theorem parse_provider_response_usage_metrics_witness :
    ∃ mr ru, parse_provider_response response_with_usage = some mr
      ∧ mr.response_usage = some ru
      ∧ ru.input_tokens = 10 ∧ ru.output_tokens = 5
      ∧ ru.total_tokens =
          ({ prompt_tokens := 10, completion_tokens := 5, total_tokens := 15
             : CompletionUsage }).total_tokens :=
  parse_provider_response_usage_metrics response_with_usage _ []
    { prompt_tokens := 10, completion_tokens := 5, total_tokens := 15 }
    rfl rfl rfl rfl

/-! ## Message formatting (`format_message`) -/

/-- The `response_format` request option: the source only reads the
value under the key `type` via `.get("type")`. -/
structure ResponseFormat where
  type : Option String := none
deriving DecidableEq

/-- The adapter configuration fields that the embedded methods read. -/
structure GroqConfig where
  id : String := "llama-3.3-70b-versatile"
  name : String := "Groq"
  response_format : Option ResponseFormat := none
deriving DecidableEq

/-- An image attachment; its payload is opaque to the adapter. -/
structure Image where
  payload : String
deriving DecidableEq

/-- A video attachment; unsupported, only triggers a warning. -/
structure Video where
  payload : String
deriving DecidableEq

/-- One element of a multi-part content list. -/
inductive ContentPart where
  | text (text : String)
  | media (payload : String)
deriving DecidableEq

/-- Message content: plain text or multi-part content blocks. -/
inductive MessageContent where
  | str (s : String)
  | parts (l : List ContentPart)
deriving DecidableEq

/-- Modelled from the spec: `Message` (agno.models.message, not under
src) with role, content, optional name, optional tool_call_id, optional
tool calls and optional media attachments; owned by the caller. -/
structure Message where
  role : String
  content : Option MessageContent := none
  name : Option String := none
  tool_call_id : Option String := none
  tool_calls : Option (List ToolCallDump) := none
  images : Option (List Image) := none
  audio : Option (List Audio) := none
  videos : Option (List Video) := none
deriving DecidableEq

/-- The mapping returned by `format_message`; a field of `none` is an
absent key (the source filters out None values). -/
structure FormattedMessage where
  role : Option String := none
  content : Option MessageContent := none
  name : Option String := none
  tool_call_id : Option String := none
  tool_calls : Option (List ToolCallDump) := none
deriving DecidableEq

/-- External collaborators of `format_message`: the image encoder
(agno.utils.openai.images_to_message), the filesystem, and the network
outcome of a transcription request. -/
structure FormatEnv where
  images_to_message : List Image → List ContentPart
  fs : String → Option Bytes
  net : String → Bytes → String → TranscribeParams → Except PyExc String

/-- The transcription call made inside `format_message`
(groq.py lines 239-241): run the embedded `transcribe_audio` and hand the
request to the network when one is issued. -/
def transcribe_for_message (env : FormatEnv) (auds : List Audio) :
    Except PyExc String :=
  match transcribe_audio env.fs (.list auds) none none none (some "text")
      none "whisper-large-v3-turbo" with
  | .failed e => .error e
  | .network_call file audio_bytes model params => env.net file audio_bytes model params

/-- The instruction appended for JSON response formats
(groq.py line 228). -/
def json_output_directive : String := "\n\nYour output should be in JSON format."

/-- `Groq.format_message` (groq.py lines 202-251).  The returned pair is
(the mapping built for the request, the Message object after the call):
the JSON special case executes `message.content += ...`, which mutates
the Message but not the mapping, whose content key was already bound to
the previous string.  The image branch reads `message.content` again and
therefore sees the mutated value. -/
def format_message (env : FormatEnv) (cfg : GroqConfig) (message : Message) :
    FormattedMessage × Message :=
  let message_dict : FormattedMessage :=
    { role := some message.role
      content := message.content
      name := message.name
      tool_call_id := message.tool_call_id
      tool_calls := message.tool_calls }
  -- if role == "system" and isinstance(content, str) and response_format.get("type") == "json_object"
  let message : Message :=
    match message.content, cfg.response_format with
    | some (.str s), some rf =>
      if message.role = "system" ∧ rf.type = some "json_object" then
        { message with content := some (.str (s ++ json_output_directive)) }
      else message
    | _, _ => message
  let message_dict : FormattedMessage :=
    match message.images with
    | some imgs =>
      if 0 < imgs.length then
        match message.content with
        | some (.str s) =>
          { message_dict with
            content := some (.parts (ContentPart.text s :: env.images_to_message imgs)) }
        | _ => message_dict
      else message_dict
    | none => message_dict
  let message_dict : FormattedMessage :=
    match message.audio with
    | some auds =>
      if 0 < auds.length then
        match transcribe_for_message env auds with
        | .ok r =>
          { message_dict with content := some (.str ("Audio Transcription: " ++ r)) }
        | .error _ => message_dict   -- transcription errors are logged, not propagated
      else message_dict
    | none => message_dict
  -- videos only trigger a warning
  (message_dict, message)

/-- An environment with no images, an empty filesystem and a network that
always returns an empty transcription; the concrete messages below carry
no media, so it is never consulted. -/
def env_plain : FormatEnv :=
  { images_to_message := fun _ => []
    fs := fun _ => none
    net := fun _ _ _ _ => Except.ok "" }

/-- The adapter configuration requesting a JSON object response. -/
def cfg_json : GroqConfig :=
  { response_format := some { type := some "json_object" } }

/-- A system message with plain-string content. -/
def msg_system : Message := { role := "system", content := some (.str "You are helpful.") }

/-- Does the content of the mapping end with the JSON-output directive? -/
def dict_content_has_directive (d : FormattedMessage) : Bool :=
  match d.content with
  | some (.str s) => s.endsWith json_output_directive
  | _ => false

set_option maxRecDepth 4096 in
/-- C4: evaluation at the failing input.  For a system message with
plain-string content under a JSON response format, the mapping returned
by format_message still carries the original content, which does not end
with the JSON-output directive: the directive was appended to
message.content only after the mapping had bound the old string, so it is
the Message that ends with the directive, not the mapping. -/
theorem format_message_directive_missing_from_dict :
    (format_message env_plain cfg_json msg_system).1.content
        = some (.str "You are helpful.")
    ∧ dict_content_has_directive (format_message env_plain cfg_json msg_system).1
        = false
    ∧ (format_message env_plain cfg_json msg_system).2.content
        = some (.str ("You are helpful." ++ json_output_directive)) := by
  refine ⟨by decide, by decide, by decide⟩

set_option maxRecDepth 4096 in
/-- C5: evaluation at the failing input.  format_message does not treat
its Message as read-only: under a JSON response format it mutates the
content of a plain-string system message, and calling it again on the
(mutated) same Message yields a different mapping than the first call. -/
theorem format_message_mutates_message :
    (format_message env_plain cfg_json msg_system).2 ≠ msg_system
    ∧ (format_message env_plain cfg_json
          ((format_message env_plain cfg_json msg_system).2)).1
        ≠ (format_message env_plain cfg_json msg_system).1 := by
  refine ⟨by decide, by decide⟩

/-! ## Client caching (`get_client`, `get_async_client`) -/

/-- The client-holding state of one adapter instance.  Client objects are
identified by allocation handles; `next_handle` is the next fresh one. -/
structure GroqClients where
  client : Option Nat := none
  async_client : Option Nat := none
  next_handle : Nat := 0
deriving DecidableEq

/-- `Groq.get_client` (groq.py lines 93-108): return the cached client if
one is set, otherwise construct a new one, STORE it in `self.client` and
return it. -/
def get_client (s : GroqClients) : Nat × GroqClients :=
  match s.client with
  | some c => (c, s)
  | none =>
    (s.next_handle,
     { s with client := some s.next_handle, next_handle := s.next_handle + 1 })

/-- `Groq.get_async_client` (groq.py lines 110-128): return the cached
async client if one is set, otherwise construct a new one and return it
WITHOUT storing it — the source never assigns `self.async_client`. -/
def get_async_client (s : GroqClients) : Nat × GroqClients :=
  match s.async_client with
  | some c => (c, s)
  | none =>
    (s.next_handle, { s with next_handle := s.next_handle + 1 })

/-- A freshly constructed adapter instance: no clients yet. -/
def fresh_clients : GroqClients := {}

/-- C8: evaluation at the failing input.  On a fresh adapter the second
get_client call returns the client object created and stored by the
first call, but the second get_async_client call returns a different
client object than the first: the async client is never stored on the
instance (async_client stays unset), so every call constructs a new
one. -/
theorem get_async_client_not_cached :
    (get_client (get_client fresh_clients).2).1 = (get_client fresh_clients).1
    ∧ (get_client (get_client fresh_clients).2).2.client
        = (get_client fresh_clients).2.client
    ∧ (get_async_client (get_async_client fresh_clients).2).1
        ≠ (get_async_client fresh_clients).1
    ∧ (get_async_client fresh_clients).2.async_client = none := by
  refine ⟨by decide, by decide, by decide, by decide⟩

/-! ## Invocation error translation (`invoke` and variants) -/

/-- Modelled from the spec: `ModelProviderError` (agno.exceptions, not
under src) carries the original message, an optional HTTP status code,
the model name and the model id. -/
structure ModelProviderError where
  message : String
  status_code : Option Int := none
  model_name : Option String := none
  model_id : Option String := none
deriving DecidableEq

/-- The outcome of the underlying provider SDK call: success, a
validation/status error carrying the HTTP status code and raw response
text (APIResponseValidationError / APIStatusError), a generic API error
carrying a message (APIError), or any other exception, stringified. -/
inductive GroqCallOutcome (α : Type) where
  | ok (a : α)
  | validation_or_status_error (status_code : Int) (response_text : String)
  | api_error (message : String)
  | unexpected (message : String)

/-- `Groq.invoke` (groq.py lines 253-279): the provider outcome is either
returned or translated into a ModelProviderError. -/
def invoke {α : Type} (cfg : GroqConfig) (outcome : GroqCallOutcome α) :
    Except ModelProviderError α :=
  match outcome with
  | .ok a => .ok a
  | .validation_or_status_error s t =>
    .error { message := t, status_code := some s
             model_name := some cfg.name, model_id := some cfg.id }
  | .api_error m =>
    .error { message := m, model_name := some cfg.name, model_id := some cfg.id }
  | .unexpected m =>
    .error { message := m, model_name := some cfg.name, model_id := some cfg.id }

/-- `Groq.ainvoke` (groq.py lines 281-307): identical error translation. -/
def ainvoke {α : Type} (cfg : GroqConfig) (outcome : GroqCallOutcome α) :
    Except ModelProviderError α :=
  match outcome with
  | .ok a => .ok a
  | .validation_or_status_error s t =>
    .error { message := t, status_code := some s
             model_name := some cfg.name, model_id := some cfg.id }
  | .api_error m =>
    .error { message := m, model_name := some cfg.name, model_id := some cfg.id }
  | .unexpected m =>
    .error { message := m, model_name := some cfg.name, model_id := some cfg.id }

/-- `Groq.invoke_stream` (groq.py lines 309-336): identical error
translation; the payload is the lazy chunk sequence. -/
def invoke_stream {α : Type} (cfg : GroqConfig) (outcome : GroqCallOutcome α) :
    Except ModelProviderError α :=
  match outcome with
  | .ok a => .ok a
  | .validation_or_status_error s t =>
    .error { message := t, status_code := some s
             model_name := some cfg.name, model_id := some cfg.id }
  | .api_error m =>
    .error { message := m, model_name := some cfg.name, model_id := some cfg.id }
  | .unexpected m =>
    .error { message := m, model_name := some cfg.name, model_id := some cfg.id }

/-- `Groq.ainvoke_stream` (groq.py lines 338-368): identical error
translation; a creation-time provider error inside the asynchronous
generator surfaces to the caller on the first pull. -/
def ainvoke_stream {α : Type} (cfg : GroqConfig) (outcome : GroqCallOutcome α) :
    Except ModelProviderError α :=
  match outcome with
  | .ok a => .ok a
  | .validation_or_status_error s t =>
    .error { message := t, status_code := some s
             model_name := some cfg.name, model_id := some cfg.id }
  | .api_error m =>
    .error { message := m, model_name := some cfg.name, model_id := some cfg.id }
  | .unexpected m =>
    .error { message := m, model_name := some cfg.name, model_id := some cfg.id }

/-- C7: for every adapter configuration and every payload type, each of
the four invocation variants translates a provider validation/status
error with HTTP status 429 and response body "rate limited" into a
ModelProviderError with status_code 429 and message "rate limited": the
HTTP status and the raw response text are preserved. -/
theorem invoke_variants_preserve_status_and_text (cfg : GroqConfig) (α : Type) :
    invoke cfg
        ((GroqCallOutcome.validation_or_status_error 429 "rate limited")
          : GroqCallOutcome α)
      = .error { message := "rate limited", status_code := some 429
                 model_name := some cfg.name, model_id := some cfg.id }
    ∧ ainvoke cfg
        ((GroqCallOutcome.validation_or_status_error 429 "rate limited")
          : GroqCallOutcome α)
      = .error { message := "rate limited", status_code := some 429
                 model_name := some cfg.name, model_id := some cfg.id }
    ∧ invoke_stream cfg
        ((GroqCallOutcome.validation_or_status_error 429 "rate limited")
          : GroqCallOutcome α)
      = .error { message := "rate limited", status_code := some 429
                 model_name := some cfg.name, model_id := some cfg.id }
    ∧ ainvoke_stream cfg
        ((GroqCallOutcome.validation_or_status_error 429 "rate limited")
          : GroqCallOutcome α)
      = .error { message := "rate limited", status_code := some 429
                 model_name := some cfg.name, model_id := some cfg.id } :=
  ⟨rfl, rfl, rfl, rfl⟩

end Agno
